import Mathlib

/-!
Shallow embedding of the benchmark sweep harness `run_benchmarks_v3.py`
(configuration generator, run executor, failure logger, result recorder,
sweep driver), together with theorems checking the specification claims.

Numbers coming from YAML/JSON are modelled as exact rationals and integers;
Python floor division `//` is `Int.fdiv`, Python `int(...)` on a number is
truncation toward zero, and Python `round(...)` is round-half-to-even.
Exceptions are modelled explicitly: each Python operation that can raise is
given an outcome parameter, and a function that can propagate an exception
returns it in its result.
-/

/-- The Python exception classes relevant to this program.  `osError` stands
for an `OSError` that is not a `FileNotFoundError` (in Python 3, `IOError`
is an alias of `OSError` and `FileNotFoundError` is a subclass of it). -/
inductive PyExc where
  | calledProcessError
  | fileNotFoundError
  | jsonDecodeError
  | osError
  | attributeError
deriving DecidableEq, Repr

/-- Python `int(q)` on a number: truncation toward zero. -/
def pyInt (q : ℚ) : ℤ :=
  if 0 ≤ q then ⌊q⌋ else ⌈q⌉

/-- Python `round(q)` with no digit argument: round half to even. -/
def pyRound (q : ℚ) : ℤ :=
  let f : ℤ := ⌊q⌋
  let frac : ℚ := q - f
  if frac < 1/2 then f
  else if 1/2 < frac then f + 1
  else if f % 2 = 0 then f else f + 1

/-- Python `a // b` on integers: floor division. -/
def pyFloorDiv (a b : ℤ) : ℤ :=
  Int.fdiv a b

/-- The success-condition check of `run_benchmark` (lines 155-160 of
`run_benchmarks_v3.py`): `failed_requests = num_prompts - completed` and the
result is accepted iff `failed_requests < num_prompts // 200`. -/
def accept_result (num_prompts completed : ℤ) : Bool :=
  num_prompts - completed < pyFloorDiv num_prompts 200

/-- The parsed JSON result of one benchmark run, reduced to the field the
executor inspects: `results.get("completed", 0)`. -/
structure ResultsJson where
  completed : ℤ
deriving DecidableEq, Repr

/-- Environment outcome of one attempt of the `for attempt in range(...)`
loop of `run_benchmark`: what the subprocess call, the result-file glob
diff, the JSON read and the archive/delete file operations do.
`parsed r archiveErr removeErr` means a new result file appeared and parsed
to `r`; `archiveErr` is the exception (if any) raised by
`os.makedirs`/`os.rename` on the acceptance path, `removeErr` the exception
(if any) raised by `os.remove` on the rejection path. -/
inductive AttemptOutcome where
  | subprocErr (e : PyExc)
  | noNewFile
  | readErr (e : PyExc)
  | parsed (results : ResultsJson) (archiveErr : Option PyExc) (removeErr : Option PyExc)
deriving DecidableEq, Repr

/-- Which exceptions the `except (subprocess.CalledProcessError,
FileNotFoundError)` clause of `run_benchmark` catches. -/
def caughtByExecutor (e : PyExc) : Bool :=
  match e with
  | .calledProcessError => true
  | .fileNotFoundError => true
  | _ => false

/-- Result of one iteration of the attempt loop: return a parsed result,
fall through to the cooldown/retry, or propagate an exception. -/
inductive AttemptResult where
  | success (r : ResultsJson)
  | failRetry
  | propagate (e : PyExc)
deriving DecidableEq, Repr

/-- One iteration of the attempt loop of `run_benchmark` (lines 134-175),
for a run with `num_prompts = np`. -/
def attemptStep (np : ℤ) : AttemptOutcome → AttemptResult
  | .subprocErr e => if caughtByExecutor e then .failRetry else .propagate e
  | .noNewFile => .failRetry
  | .readErr e => if caughtByExecutor e then .failRetry else .propagate e
  | .parsed r archiveErr removeErr =>
    if accept_result np r.completed then
      match archiveErr with
      | none => .success r
      | some e => if caughtByExecutor e then .failRetry else .propagate e
    else
      match removeErr with
      | none => .failRetry
      | some e => if caughtByExecutor e then .failRetry else .propagate e

/-- Overall outcome of `run_benchmark`: a parsed result (`return results`),
the sentinel `None` (`return None` after exhausting retries), or an
uncaught exception propagating out. -/
inductive RunResult where
  | ok (r : ResultsJson)
  | noResult
  | raised (e : PyExc)
deriving DecidableEq, Repr

/-- Observable trace of one `run_benchmark` call: its outcome, how many
loop iterations were entered, how many in-loop cooldown sleeps happened,
and whether `log_failed_run` was called. -/
structure RunLog where
  result : RunResult
  attempts : ℕ
  sleeps : ℕ
  loggedFail : Bool
deriving DecidableEq, Repr

/-- The attempt loop of `run_benchmark`, over the list of per-attempt
environment outcomes (one entry per remaining iteration).  After a failed
attempt the code sleeps iff `attempt < max_retries - 1`, i.e. iff another
iteration remains.  Returns the outcome, iterations entered and sleeps. -/
def runAttempts (np : ℤ) : List AttemptOutcome → RunResult × ℕ × ℕ
  | [] => (.noResult, 0, 0)
  | o :: rest =>
    match attemptStep np o with
    | .success r => (.ok r, 1, 0)
    | .propagate e => (.raised e, 1, 0)
    | .failRetry =>
      let sleepHere : ℕ := if rest.isEmpty then 0 else 1
      let t := runAttempts np rest
      (t.1, t.2.1 + 1, t.2.2 + sleepHere)

/-- `run_benchmark` (lines 98-184): run up to `max_retries` attempts with
per-attempt environment `env`; if every attempt falls through, call
`log_failed_run` and return `None`. -/
def run_benchmark (np : ℤ) (max_retries : ℕ) (env : ℕ → AttemptOutcome) : RunLog :=
  let t := runAttempts np ((List.range max_retries).map env)
  ⟨t.1, t.2.1, t.2.2, t.1 = .noResult⟩

/-- A request-rate value from the sweep axis `req_rates`: either the string
sentinel `"inf"`, a numeric value, or some other non-numeric string (one
that is not `"inf"` and does not parse as a float, reaching the
`except ValueError` fallback of the generator). -/
inductive ReqRate where
  | infRate
  | rate (q : ℚ)
  | nonNumeric
deriving DecidableEq, Repr

/-- Whether `req_rate == "inf"` holds. -/
def ReqRate.isInfSentinel : ReqRate → Bool
  | .infRate => true
  | _ => false

/-- The base configuration, reduced to the one field the generator
inspects: `base_config.get("num_prompts")` when it is present and passes
`isinstance(..., (int, float))`, else `none`. -/
structure BaseConfig where
  num_prompts : Option ℚ
deriving DecidableEq, Repr

/-- The sweep axes read from `sweep_params` (lines 17-20). -/
structure SweepParams where
  req_rates : List ReqRate
  input_lens : List ℚ
  input_to_output_len_ratios : List ℚ
  max_concurrency_values : List (Option ℤ)
deriving Repr

/-- One generated run configuration: the fields the generator overwrites on
the copy of the base configuration (lines 68-74). -/
structure GenConfig where
  req_rate : ReqRate
  input_len : ℚ
  output_len : ℤ
  num_prompts : ℤ
  max_curr : Option ℤ
deriving DecidableEq, Repr

/-- The derived prompt count (lines 47-66) when the base configuration has
no explicit numeric `num_prompts`: `max(512, 10 * max_curr)` for a
throughput run, `max(512, int(req_rate * 60))` for a latency run, and the
512 fallback when `float(req_rate)` raises `ValueError`.  The
`infRate`-with-`none` combination never reaches this function because the
pairing filter discards it; it is mapped to the same 512 fallback. -/
def derivedNumPrompts (rr : ReqRate) (mc : Option ℤ) : ℤ :=
  match mc with
  | some c => max 512 (10 * c)
  | none =>
    match rr with
    | .rate q => max 512 (pyInt (q * 60))
    | _ => max 512 512

/-- The prompt count the generator puts into a configuration (lines
41-66): `int(...)` of the explicit base-config value when present and
numeric, else the derived value. -/
def configNumPrompts (base : BaseConfig) (rr : ReqRate) (mc : Option ℤ) : ℤ :=
  match base.num_prompts with
  | some q => pyInt q
  | none => derivedNumPrompts rr mc

/-- `generate_benchmark_configs` (lines 13-76): the nested loop over
request rates, input lengths, ratios and concurrency values, with the
output-length cap and the rate/concurrency pairing filter. -/
def generate_benchmark_configs (base : BaseConfig) (sp : SweepParams) : List GenConfig :=
  sp.req_rates.flatMap fun rr =>
    sp.input_lens.flatMap fun il =>
      sp.input_to_output_len_ratios.flatMap fun ratio =>
        let ol : ℤ := pyRound (il / ratio)
        if 1024 < ol then []
        else
          sp.max_concurrency_values.filterMap fun mc =>
            if rr.isInfSentinel && mc.isNone then none
            else if !rr.isInfSentinel && mc.isSome then none
            else some ⟨rr, il, ol, configNumPrompts base rr mc, mc⟩

/-- A parsed JSON value found in the failure-log file: either a JSON array
of configurations, or some valid JSON that is not an array. -/
inductive LogJsonVal where
  | arr (cs : List GenConfig)
  | nonArray
deriving DecidableEq, Repr

/-- The contents of the failure-log file as `log_failed_run` finds them:
absent, empty, unreadable (an `OSError` on open/read), unparseable (a
`json.JSONDecodeError`), or parsed JSON content. -/
inductive LogFileRead where
  | absent
  | empty
  | readOsError
  | parseError
  | content (v : LogJsonVal)
deriving DecidableEq, Repr

/-- Outcome of the rewrite step (`open(..., "w")` and `json.dump`). -/
inductive LogWrite where
  | ok
  | writeOsError
deriving DecidableEq, Repr

/-- `log_failed_run` (lines 79-95).  Result: `.ok (some arr)` when the file
was rewritten with the new array `arr`; `.ok none` when an `IOError` or
`JSONDecodeError` was caught and only reported; `.error e` when an
exception propagates out of the function.  Note that in Python 3 `IOError`
is `OSError`, so both read and write `OSError`s are caught, while calling
`.append` on parsed JSON that is not a list raises an uncaught
`AttributeError`. -/
def log_failed_run (cfg : GenConfig) (read : LogFileRead) (write : LogWrite) :
    Except PyExc (Option (List GenConfig)) :=
  match read with
  | .readOsError => .ok none
  | .parseError => .ok none
  | .content .nonArray => .error .attributeError
  | .content (.arr cs) =>
    match write with
    | .ok => .ok (some (cs ++ [cfg]))
    | .writeOsError => .ok none
  | .absent | .empty =>
    match write with
    | .ok => .ok (some [cfg])
    | .writeOsError => .ok none

/-- The fixed preference order for known configuration keys used when
deriving the CSV column order (lines 247-251). -/
def base_keys : List String :=
  ["model", "tokenizer", "hardware", "notes", "pd_enabled",
   "prefill_node", "prefill_dp", "prefill_tp",
   "decode_node", "decode_dp", "decode_tp"]

/-- The CSV column order derived on the first successful run of a session
(lines 252-256): the preference order, then the configuration keys not in
it, then the result keys, then `"timestamp"`. -/
def deriveFieldnames (configKeys resultKeys : List String) : List String :=
  base_keys ++ (configKeys.filter fun k => !base_keys.contains k) ++ resultKeys ++ ["timestamp"]

/-- What the Result Recorder writes to the CSV file during one sweep
session: the header line (as a column order), if any, and the column order
used for each data row. -/
structure CsvSession where
  header : Option (List String)
  rowOrders : List (List String)
deriving DecidableEq, Repr

/-- The CSV-writing part of `main` (lines 224, 243-264), given whether the
destination file was absent or empty at the start of the sweep
(`write_header`, line 224) and the (configKeys, resultKeys) of each
successful run in order.  The `csv.DictWriter` is created on the first
successful run, with the column order derived from that run; a header is
written then iff `write_header` was set; every later row reuses the
writer and hence that same column order.  The pre-existing contents of the
file are never read. -/
def csvAppendSession (write_header : Bool) :
    List (List String × List String) → CsvSession
  | [] => ⟨none, []⟩
  | (configKeys, resultKeys) :: rest =>
    let fieldnames := deriveFieldnames configKeys resultKeys
    ⟨if write_header then some fieldnames else none,
     fieldnames :: rest.map fun _ => fieldnames⟩

/-- Observable outcome of the sweep loop of `main` (lines 229-272): the
(configuration, result) pairs handed to the Result Recorder in order, the
number of between-run cooldown sleeps performed by the driver, and the
exception, if any, that aborted the loop. -/
structure SweepOutcome where
  recorded : List (GenConfig × ResultsJson)
  driverSleeps : ℕ
  raisedExc : Option PyExc
deriving DecidableEq, Repr

/-- The sweep loop of `main` over the (remaining) generated configurations,
each paired with the per-attempt environment of its `run_benchmark` call.
On a result, the pair is recorded and the driver sleeps iff this was not
the last configuration (line 269); on the `None` sentinel the driver
`continue`s directly to the next configuration, reaching no sleep; an
exception out of `run_benchmark` aborts the whole loop. -/
def sweepLoop (np : GenConfig → ℤ) (max_retries : ℕ) :
    List (GenConfig × (ℕ → AttemptOutcome)) → SweepOutcome
  | [] => ⟨[], 0, none⟩
  | (c, env) :: rest =>
    match (run_benchmark (np c) max_retries env).result with
    | .raised e => ⟨[], 0, some e⟩
    | .noResult =>
      let s := sweepLoop np max_retries rest
      ⟨s.recorded, s.driverSleeps, s.raisedExc⟩
    | .ok r =>
      let s := sweepLoop np max_retries rest
      ⟨(c, r) :: s.recorded, s.driverSleeps + (if rest.isEmpty then 0 else 1), s.raisedExc⟩

/-- An attempt outcome whose every raised exception is one the executor
catches: such an attempt can never make `run_benchmark` propagate. -/
def containedOutcome : AttemptOutcome → Bool
  | .subprocErr e => caughtByExecutor e
  | .noNewFile => true
  | .readErr e => caughtByExecutor e
  | .parsed _ archiveErr removeErr =>
    (match archiveErr with | none => true | some e => caughtByExecutor e) &&
    (match removeErr with | none => true | some e => caughtByExecutor e)

example : (run_benchmark 1000 3 (fun _ => .parsed ⟨998⟩ none none)).result = .ok ⟨998⟩ := by decide
example : (run_benchmark 1000 3 (fun _ => .parsed ⟨990⟩ none none)) = ⟨.noResult, 3, 2, true⟩ := by decide
example : (run_benchmark 1000 3 (fun _ => .readErr .jsonDecodeError)) = ⟨.raised .jsonDecodeError, 1, 0, false⟩ := by decide

/-- Evaluation of the rounding on the spec examples: 1024/4 rounds to 256
and 1024/3 rounds to 341. -/
theorem pyRound_examples : pyRound (1024/4) = 256 ∧ pyRound (1024/3) = 341 := by
  constructor <;> norm_num [pyRound]

/-- Evaluation of the generator on a small sweep without an explicit
prompt count: the throughput run derives 10 by 64 = 640 prompts, the
latency run derives max 512 300 = 512 prompts. -/
theorem generate_eval_derived :
    generate_benchmark_configs ⟨none⟩ ⟨[.infRate, .rate 5], [1024], [4], [none, some 64]⟩ =
      [⟨.infRate, 1024, 256, 640, some 64⟩, ⟨.rate 5, 1024, 256, 512, none⟩] := by
  norm_num [generate_benchmark_configs, pyRound, configNumPrompts, derivedNumPrompts, pyInt,
    ReqRate.isInfSentinel, List.flatMap, List.filterMap]

/-- Evaluation of the generator on a sweep whose base configuration fixes
an explicit prompt count of 100: the generated configuration keeps it. -/
theorem generate_eval_explicit :
    generate_benchmark_configs ⟨some 100⟩ ⟨[.infRate], [1024], [4], [some 64]⟩ =
      [⟨.infRate, 1024, 256, 100, some 64⟩] := by
  norm_num [generate_benchmark_configs, pyRound, configNumPrompts, pyInt, ReqRate.isInfSentinel,
    List.flatMap, List.filterMap]

/-- Characterization of membership in the generated configuration list. -/
theorem mem_generate_iff (base : BaseConfig) (sp : SweepParams) (cfg : GenConfig) :
    cfg ∈ generate_benchmark_configs base sp ↔
      ∃ rr ∈ sp.req_rates, ∃ il ∈ sp.input_lens,
        ∃ ratio ∈ sp.input_to_output_len_ratios, ∃ mc ∈ sp.max_concurrency_values,
          pyRound (il / ratio) ≤ 1024 ∧
          (rr.isInfSentinel && mc.isNone) = false ∧
          ((!rr.isInfSentinel) && mc.isSome) = false ∧
          cfg = ⟨rr, il, pyRound (il / ratio), configNumPrompts base rr mc, mc⟩ := by
  unfold generate_benchmark_configs
  simp only [List.mem_flatMap, List.mem_filterMap]
  constructor
  · rintro ⟨rr, hrr, il, hil, ratio, hratio, hmem⟩
    refine ⟨rr, hrr, il, hil, ratio, hratio, ?_⟩
    split at hmem
    · exact absurd hmem (List.not_mem_nil cfg)
    · obtain ⟨mc, hmc, hsome⟩ := List.mem_filterMap.mp hmem
      refine ⟨mc, hmc, by omega, ?_⟩
      split at hsome
      · exact absurd hsome (by simp)
      · split at hsome
        · exact absurd hsome (by simp)
        · rename_i h1 h2
          simp only [Bool.not_eq_true] at h1 h2
          exact ⟨h1, h2, (Option.some_inj.mp hsome).symm⟩
  · rintro ⟨rr, hrr, il, hil, ratio, hratio, mc, hmc, hle, h1, h2, rfl⟩
    refine ⟨rr, hrr, il, hil, ratio, hratio, ?_⟩
    rw [if_neg (by omega)]
    exact List.mem_filterMap.mpr ⟨mc, hmc, by rw [if_neg (by simp [h1]), if_neg (by simp [h2])]⟩

/-- The derived prompt count is always at least 512. -/
theorem derivedNumPrompts_ge (rr : ReqRate) (mc : Option ℤ) :
    512 ≤ derivedNumPrompts rr mc := by
  unfold derivedNumPrompts
  cases mc with
  | some c => exact le_max_left _ _
  | none => cases rr <;> simp [le_max_left]

/-- A contained attempt outcome never makes the attempt propagate. -/
theorem attemptStep_contained (np : ℤ) (o : AttemptOutcome)
    (h : containedOutcome o = true) (e : PyExc) :
    attemptStep np o ≠ .propagate e := by
  cases o with
  | subprocErr e0 =>
    simp only [containedOutcome] at h
    simp [attemptStep, h]
  | noNewFile => simp [attemptStep]
  | readErr e0 =>
    simp only [containedOutcome] at h
    simp [attemptStep, h]
  | parsed r archiveErr removeErr =>
    simp only [containedOutcome, Bool.and_eq_true] at h
    simp only [attemptStep]
    split
    · cases archiveErr with
      | none => simp
      | some e0 =>
        simp only at h
        simp [h.1]
    · cases removeErr with
      | none => simp
      | some e0 =>
        simp only at h
        simp [h.2]

/-- If every remaining attempt outcome is contained, the attempt loop never
ends in a propagated exception. -/
theorem runAttempts_contained (np : ℤ) (outs : List AttemptOutcome)
    (h : ∀ o ∈ outs, containedOutcome o = true) (e : PyExc) :
    (runAttempts np outs).1 ≠ .raised e := by
  induction outs with
  | nil => simp [runAttempts]
  | cons o rest ih =>
    simp only [runAttempts]
    rcases hstep : attemptStep np o with r | _ | e0
    · simp
    · exact ih fun o ho => h o (List.mem_cons_of_mem _ ho)
    · exact absurd hstep (attemptStep_contained np o (h o (List.mem_cons_self o rest)) e0)

/-- An attempt returns a parsed result only if it passed the acceptance
check. -/
theorem attemptStep_success (np : ℤ) (o : AttemptOutcome) (r : ResultsJson)
    (h : attemptStep np o = .success r) :
    accept_result np r.completed = true := by
  cases o with
  | subprocErr e => simp only [attemptStep] at h; split at h <;> simp at h
  | noNewFile => simp [attemptStep] at h
  | readErr e => simp only [attemptStep] at h; split at h <;> simp at h
  | parsed r1 archiveErr removeErr =>
    simp only [attemptStep] at h
    split at h
    · rename_i hacc
      cases archiveErr with
      | none =>
        simp only [AttemptResult.success.injEq] at h
        subst h; exact hacc
      | some e =>
        split at h
        · simp_all
        · split at h <;> simp at h
    · cases removeErr with
      | none => simp at h
      | some e =>
        split at h
        · simp_all
        · split at h <;> simp at h

/-- If the attempt loop returns a parsed result, that result passed the
acceptance check. -/
theorem runAttempts_ok_accept (np : ℤ) (outs : List AttemptOutcome) (r : ResultsJson)
    (h : (runAttempts np outs).1 = .ok r) :
    accept_result np r.completed = true := by
  induction outs with
  | nil => simp [runAttempts] at h
  | cons o rest ih =>
    simp only [runAttempts] at h
    rcases hstep : attemptStep np o with r0 | _ | e0 <;> rw [hstep] at h
    · simp only [RunResult.ok.injEq] at h
      exact h ▸ attemptStep_success np o r0 hstep
    · exact ih h
    · simp at h

/-- If every remaining attempt outcome falls through to a retry, the
attempt loop performs all of them, sleeping between consecutive ones. -/
theorem runAttempts_allFail (np : ℤ) (outs : List AttemptOutcome)
    (h : ∀ o ∈ outs, attemptStep np o = .failRetry) :
    runAttempts np outs = (.noResult, outs.length, outs.length - 1) := by
  induction outs with
  | nil => simp [runAttempts]
  | cons o rest ih =>
    simp only [runAttempts, h o (List.mem_cons_self o rest),
      ih fun o ho => h o (List.mem_cons_of_mem _ ho)]
    cases rest with
    | nil => simp
    | cons o2 rest2 => simp [List.isEmpty]

/-- A rejected parsed result with a successful cleanup falls through to a
retry. -/
theorem attemptStep_rejected (np : ℤ) (r : ResultsJson)
    (h : accept_result np r.completed = false) :
    attemptStep np (.parsed r none none) = .failRetry := by
  simp [attemptStep, h]

/-- Every recorded (configuration, result) pair passed the acceptance
check. -/
theorem sweepLoop_recorded_accept (npf : GenConfig → ℤ) (mr : ℕ)
    (l : List (GenConfig × (ℕ → AttemptOutcome))) (c : GenConfig) (r : ResultsJson)
    (h : (c, r) ∈ (sweepLoop npf mr l).recorded) :
    accept_result (npf c) r.completed = true := by
  induction l with
  | nil => simp [sweepLoop] at h
  | cons p rest ih =>
    obtain ⟨c0, env0⟩ := p
    simp only [sweepLoop] at h
    rcases hres : (run_benchmark (npf c0) mr env0).result with r0 | _ | e0 <;>
      rw [hres] at h
    · rcases List.mem_cons.mp h with heq | hmem
      · obtain ⟨h1, h2⟩ := Prod.mk.injEq .. ▸ heq
        subst h1
        have : accept_result (npf c) r0.completed = true := by
          have h3 : (runAttempts (npf c) ((List.range mr).map env0)).1 = .ok r0 := hres
          exact runAttempts_ok_accept _ _ _ h3
        rwa [← h2] at this
      · exact ih hmem
    · exact ih h
    · simp at h

/-- If every attempt outcome of every run is contained, the sweep loop
never aborts with an exception. -/
theorem sweepLoop_contained (npf : GenConfig → ℤ) (mr : ℕ)
    (l : List (GenConfig × (ℕ → AttemptOutcome)))
    (h : ∀ p ∈ l, ∀ i, containedOutcome (p.2 i) = true) :
    (sweepLoop npf mr l).raisedExc = none := by
  induction l with
  | nil => simp [sweepLoop]
  | cons p rest ih =>
    obtain ⟨c0, env0⟩ := p
    simp only [sweepLoop]
    rcases hres : (run_benchmark (npf c0) mr env0).result with r0 | _ | e0
    · exact ih fun p hp => h p (List.mem_cons_of_mem _ hp)
    · exact ih fun p hp => h p (List.mem_cons_of_mem _ hp)
    · exfalso
      have hcont : ∀ o ∈ (List.range mr).map env0, containedOutcome o = true := by
        intro o ho
        obtain ⟨i, _, rfl⟩ := List.mem_map.mp ho
        exact h (c0, env0) (List.mem_cons_self _ rest) i
      exact runAttempts_contained (npf c0) _ hcont e0 hres

/-- C1: The Run Executor computes the failed-request count as the requested
prompt count minus the completed count reported in the parsed result, and
accepts exactly when that count is strictly below the integer quotient
`num_prompts // 200`; with 1000 requested prompts a result with
completed = 998 is accepted and one with completed = 990 is rejected; a
parsed result is returned upward only when it passed this check, and every
(configuration, result) pair that the sweep loop hands to the Recorder
passed it. -/
theorem C1_acceptance_threshold :
    (∀ num_prompts completed : ℤ,
        accept_result num_prompts completed = true ↔
          num_prompts - completed < pyFloorDiv num_prompts 200) ∧
    accept_result 1000 998 = true ∧
    accept_result 1000 990 = false ∧
    (∀ (np : ℤ) (r : ResultsJson),
        attemptStep np (.parsed r none none) =
          (if accept_result np r.completed then .success r else .failRetry)) ∧
    (∀ (np : ℤ) (mr : ℕ) (env : ℕ → AttemptOutcome) (r : ResultsJson),
        (run_benchmark np mr env).result = .ok r → accept_result np r.completed = true) ∧
    (∀ (npf : GenConfig → ℤ) (mr : ℕ) (l : List (GenConfig × (ℕ → AttemptOutcome)))
        (c : GenConfig) (r : ResultsJson),
        (c, r) ∈ (sweepLoop npf mr l).recorded →
        accept_result (npf c) r.completed = true) := by
  refine ⟨?_, by decide, by decide, ?_, ?_, sweepLoop_recorded_accept⟩
  · intro np completed
    simp [accept_result]
  · intro np r
    by_cases h : accept_result np r.completed = true
    · simp [attemptStep, h]
    · simp only [Bool.not_eq_true] at h
      simp [attemptStep, h]
  · intro np mr env r h
    exact runAttempts_ok_accept np _ r h

/-- Witness for C1: a concrete one-configuration sweep whose run reports
998 of 1000 prompts completed records that pair, and it passed the
acceptance check. -/
theorem C1_acceptance_threshold_witness :
    accept_result ((⟨.infRate, 1024, 256, 1000, some 64⟩ : GenConfig).num_prompts)
      ((⟨998⟩ : ResultsJson).completed) = true :=
  C1_acceptance_threshold.2.2.2.2.2 (fun c => c.num_prompts) 3
    [(⟨.infRate, 1024, 256, 1000, some 64⟩, fun _ => .parsed ⟨998⟩ none none)]
    ⟨.infRate, 1024, 256, 1000, some 64⟩ ⟨998⟩ (by decide)

/-- C2 is falsified by an unparseable result file: `json.load` raising
`JSONDecodeError` is not caught by the `except (CalledProcessError,
FileNotFoundError)` clause, so it propagates out of `run_benchmark` on the
first attempt (no retry, no failure-log entry), and the sweep loop aborts,
never reaching the second configuration even though its runs would
succeed. -/
theorem C2_counterexample :
    run_benchmark 1000 3 (fun _ => .readErr .jsonDecodeError) =
      ⟨.raised .jsonDecodeError, 1, 0, false⟩ ∧
    sweepLoop (fun c => c.num_prompts) 3
      [(⟨.infRate, 1024, 256, 1000, some 8⟩, fun _ => .readErr .jsonDecodeError),
       (⟨.infRate, 1024, 256, 1000, some 16⟩, fun _ => .parsed ⟨1000⟩ none none)] =
      ⟨[], 0, some .jsonDecodeError⟩ := by
  constructor <;> decide

/-- C2 amended: for attempt outcomes whose exceptions are limited to the
classes the executor catches (subprocess `CalledProcessError`, any
`FileNotFoundError`) plus the non-raising outcomes (missing result file,
parsed result with error-free archive/delete), `run_benchmark` always
returns a parsed result or the no-result sentinel, and the sweep driver
never aborts; an uncaught class (`JSONDecodeError`, other `OSError`)
propagates, as the counterexample shows. -/
theorem C2_amended_containment :
    (∀ (np : ℤ) (mr : ℕ) (env : ℕ → AttemptOutcome),
        (∀ i, containedOutcome (env i) = true) →
        (run_benchmark np mr env).result = .noResult ∨
          ∃ r, (run_benchmark np mr env).result = .ok r) ∧
    (∀ (npf : GenConfig → ℤ) (mr : ℕ) (l : List (GenConfig × (ℕ → AttemptOutcome))),
        (∀ p ∈ l, ∀ i, containedOutcome (p.2 i) = true) →
        (sweepLoop npf mr l).raisedExc = none) := by
  constructor
  · intro np mr env h
    have hne : ∀ e, (run_benchmark np mr env).result ≠ .raised e := by
      intro e
      refine runAttempts_contained np _ ?_ e
      intro o ho
      obtain ⟨i, _, rfl⟩ := List.mem_map.mp ho
      exact h i
    rcases hres : (run_benchmark np mr env).result with r | _ | e
    · exact Or.inr ⟨r, rfl⟩
    · exact Or.inl rfl
    · exact absurd hres (hne e)
  · exact sweepLoop_contained

/-- Witness for the amended C2: a run whose every attempt hits a caught
subprocess failure ends in the no-result sentinel or a parsed result,
never in a propagated exception. -/
theorem C2_amended_containment_witness :
    (run_benchmark 1000 3 (fun _ => .subprocErr .calledProcessError)).result = .noResult ∨
      ∃ r, (run_benchmark 1000 3
        (fun _ => .subprocErr .calledProcessError)).result = .ok r :=
  C2_amended_containment.1 1000 3 (fun _ => .subprocErr .calledProcessError)
    (fun _ => rfl)

/-- C3 is falsified by an explicit base-config prompt count below 512: the
512 floor applies only to derived prompt counts, so a base configuration
with `num_prompts = 100` produces a generated configuration with prompt
count 100 < 512. -/
theorem C3_counterexample :
    ∃ cfg ∈ generate_benchmark_configs ⟨some 100⟩ ⟨[.infRate], [1024], [4], [some 64]⟩,
      cfg.num_prompts = 100 ∧ cfg.num_prompts < 512 := by
  refine ⟨⟨.infRate, 1024, 256, 100, some 64⟩, ?_, rfl, by norm_num⟩
  rw [generate_eval_explicit]
  exact List.mem_singleton.mpr rfl

/-- C3 amended: when the base configuration has no explicit numeric prompt
count, every generated prompt count is at least 512 and equals the derived
value (max 512 of 10 times concurrency for throughput runs, max 512 of
request-rate times 60 truncated for latency runs); when an explicit
numeric value is supplied, every generated prompt count equals its integer
truncation, with no 512 floor. -/
theorem C3_amended_prompt_count :
    (∀ (base : BaseConfig) (sp : SweepParams) (cfg : GenConfig),
        cfg ∈ generate_benchmark_configs base sp → base.num_prompts = none →
        512 ≤ cfg.num_prompts ∧
        (∀ c : ℤ, cfg.max_curr = some c → cfg.num_prompts = max 512 (10 * c)) ∧
        (cfg.max_curr = none → ∀ q : ℚ, cfg.req_rate = .rate q →
            cfg.num_prompts = max 512 (pyInt (q * 60)))) ∧
    (∀ (base : BaseConfig) (sp : SweepParams) (cfg : GenConfig) (q : ℚ),
        cfg ∈ generate_benchmark_configs base sp → base.num_prompts = some q →
        cfg.num_prompts = pyInt q) := by
  constructor
  · intro base sp cfg hmem hnone
    obtain ⟨rr, _, il, _, ratio, _, mc, _, _, _, _, rfl⟩ :=
      (mem_generate_iff base sp cfg).mp hmem
    refine ⟨?_, ?_, ?_⟩
    · simpa [configNumPrompts, hnone] using derivedNumPrompts_ge rr mc
    · intro c hc
      have hmc : mc = some c := hc
      subst hmc
      simp [configNumPrompts, hnone, derivedNumPrompts]
    · intro hmcn q hq
      have hmc : mc = none := hmcn
      have hrr : rr = .rate q := hq
      subst hmc; subst hrr
      simp [configNumPrompts, hnone, derivedNumPrompts]
  · intro base sp cfg q hmem hq
    obtain ⟨rr, _, il, _, ratio, _, mc, _, _, _, _, rfl⟩ :=
      (mem_generate_iff base sp cfg).mp hmem
    simp [configNumPrompts, hq]

/-- Witness for the amended C3: with an explicit base prompt count of 100,
the concrete generated configuration carries prompt count pyInt 100. -/
theorem C3_amended_prompt_count_witness :
    (⟨.infRate, 1024, 256, 100, some 64⟩ : GenConfig).num_prompts = pyInt 100 :=
  C3_amended_prompt_count.2 ⟨some 100⟩ ⟨[.infRate], [1024], [4], [some 64]⟩
    ⟨.infRate, 1024, 256, 100, some 64⟩ 100
    (by rw [generate_eval_explicit]; exact List.mem_singleton.mpr rfl) rfl

/-- C4 is falsified on its second half: with a pre-existing non-empty CSV
file no header is written, but the column order of the appended rows is
recomputed from the current run (preference keys, then other configuration
keys, then result keys, then timestamp) — the pre-existing file is never
read, so for a file whose columns are, say, [model, completed], the
appended row uses a different order. -/
theorem C4_counterexample :
    (csvAppendSession false [(["model", "num_prompts"], ["completed"])]).header = none ∧
    (csvAppendSession false [(["model", "num_prompts"], ["completed"])]).rowOrders =
      [deriveFieldnames ["model", "num_prompts"] ["completed"]] ∧
    deriveFieldnames ["model", "num_prompts"] ["completed"] ≠ ["model", "completed"] := by
  refine ⟨rfl, rfl, ?_⟩
  decide

/-- C4 amended: if the destination file is absent or empty at sweep start,
the first successful row is preceded by a header carrying the derived
column order; if the file pre-exists non-empty, no header is written; in
both cases every appended row uses the column order derived from the first
successful run of this session (never read back from the file), and one
row is written per successful run. -/
theorem C4_amended_header_logic :
    (∀ (ck rk : List String) (rest : List (List String × List String)),
        (csvAppendSession true ((ck, rk) :: rest)).header = some (deriveFieldnames ck rk) ∧
        (csvAppendSession false ((ck, rk) :: rest)).header = none) ∧
    (∀ wh : Bool, (csvAppendSession wh []).header = none) ∧
    (∀ (wh : Bool) (s : List (List String × List String)) (ord : List String),
        ord ∈ (csvAppendSession wh s).rowOrders →
        ∃ p, s.head? = some p ∧ ord = deriveFieldnames p.1 p.2) ∧
    (∀ (wh : Bool) (s : List (List String × List String)),
        (csvAppendSession wh s).rowOrders.length = s.length) := by
  refine ⟨fun ck rk rest => ⟨rfl, rfl⟩, fun wh => rfl, ?_, ?_⟩
  · intro wh s ord hord
    cases s with
    | nil => simp [csvAppendSession] at hord
    | cons p rest =>
      obtain ⟨ck, rk⟩ := p
      simp only [csvAppendSession] at hord
      rcases List.mem_cons.mp hord with h | h
      · exact ⟨(ck, rk), rfl, h⟩
      · obtain ⟨_, _, rfl⟩ := List.mem_map.mp h
        exact ⟨(ck, rk), rfl, rfl⟩
  · intro wh s
    cases s with
    | nil => rfl
    | cons p rest =>
      obtain ⟨ck, rk⟩ := p
      simp [csvAppendSession]

/-- Witness for the amended C4: in a session over a new file with one
successful run, the one row written uses the order derived from that run. -/
theorem C4_amended_header_logic_witness :
    ∃ p, ([(["model"], ["completed"])] : List (List String × List String)).head? = some p ∧
      deriveFieldnames ["model"] ["completed"] = deriveFieldnames p.1 p.2 :=
  C4_amended_header_logic.2.2.1 true [(["model"], ["completed"])]
    (deriveFieldnames ["model"] ["completed"]) (List.mem_singleton.mpr rfl)

/-- C5: every generated configuration pairs the "inf" request-rate
sentinel with a defined concurrency value, or a non-"inf" request rate
with an undefined concurrency value — exactly one of the two, never both
or neither. -/
theorem C5_rate_concurrency_pairing (base : BaseConfig) (sp : SweepParams)
    (cfg : GenConfig) (h : cfg ∈ generate_benchmark_configs base sp) :
    Xor' (cfg.req_rate.isInfSentinel = true ∧ cfg.max_curr ≠ none)
         (cfg.req_rate.isInfSentinel = false ∧ cfg.max_curr = none) := by
  obtain ⟨rr, _, il, _, ratio, _, mc, _, _, h1, h2, rfl⟩ :=
    (mem_generate_iff base sp cfg).mp h
  rcases mc with _ | c
  · cases hinf : rr.isInfSentinel
    · refine Or.inr ⟨⟨rfl, rfl⟩, ?_⟩
      rintro ⟨hl, -⟩
      exact absurd hl (by simp)
    · rw [hinf] at h1
      simp at h1
  · cases hinf : rr.isInfSentinel
    · rw [hinf] at h2
      simp at h2
    · refine Or.inl ⟨⟨rfl, by simp⟩, ?_⟩
      rintro ⟨hl, -⟩
      exact absurd hl (by simp)

/-- Witness for C5 at the concrete generated throughput configuration. -/
theorem C5_rate_concurrency_pairing_witness :
    Xor' ((⟨.infRate, 1024, 256, 640, some 64⟩ : GenConfig).req_rate.isInfSentinel = true ∧
          (⟨.infRate, 1024, 256, 640, some 64⟩ : GenConfig).max_curr ≠ none)
         ((⟨.infRate, 1024, 256, 640, some 64⟩ : GenConfig).req_rate.isInfSentinel = false ∧
          (⟨.infRate, 1024, 256, 640, some 64⟩ : GenConfig).max_curr = none) :=
  C5_rate_concurrency_pairing ⟨none⟩ ⟨[.infRate, .rate 5], [1024], [4], [none, some 64]⟩ _
    (by rw [generate_eval_derived]; exact List.mem_cons_self _ _)

/-- C6: every generated configuration carries output length equal to the
half-to-even rounding of input length divided by some swept ratio, no
generated configuration has output length above 1024, and on the spec
examples 1024/4 rounds to 256 and 1024/3 rounds to 341. -/
theorem C6_output_length (base : BaseConfig) (sp : SweepParams) (cfg : GenConfig)
    (h : cfg ∈ generate_benchmark_configs base sp) :
    cfg.output_len ≤ 1024 ∧
    (∃ ratio ∈ sp.input_to_output_len_ratios,
        cfg.input_len ∈ sp.input_lens ∧
        cfg.output_len = pyRound (cfg.input_len / ratio)) ∧
    pyRound (1024 / 4) = 256 ∧ pyRound (1024 / 3) = 341 := by
  obtain ⟨rr, _, il, hil, ratio, hratio, mc, _, hle, _, _, rfl⟩ :=
    (mem_generate_iff base sp cfg).mp h
  exact ⟨hle, ⟨ratio, hratio, hil, rfl⟩, pyRound_examples.1, pyRound_examples.2⟩

/-- Witness for C6 at the concrete generated configuration with input
length 1024 and ratio 4. -/
theorem C6_output_length_witness :
    ((⟨.infRate, 1024, 256, 640, some 64⟩ : GenConfig).output_len ≤ 1024 ∧
     (∃ ratio ∈ ([4] : List ℚ),
        (⟨.infRate, 1024, 256, 640, some 64⟩ : GenConfig).input_len ∈ ([1024] : List ℚ) ∧
        (⟨.infRate, 1024, 256, 640, some 64⟩ : GenConfig).output_len =
          pyRound ((⟨.infRate, 1024, 256, 640, some 64⟩ : GenConfig).input_len / ratio)) ∧
     pyRound (1024 / 4) = 256 ∧ pyRound (1024 / 3) = 341) :=
  C6_output_length ⟨none⟩ ⟨[.infRate, .rate 5], [1024], [4], [none, some 64]⟩ _
    (by rw [generate_eval_derived]; exact List.mem_cons_self _ _)

/-- C7: for a configuration whose every attempt produces a parsed result
failing the completion threshold (with a clean delete), the executor
performs exactly max-retries attempts, sleeps between consecutive attempts
but not after the last, returns the no-result sentinel with the failure
logger invoked once, and one logger call appends the configuration exactly
once to the stored array. -/
theorem C7_retry_exhaustion (np : ℤ) (mr : ℕ) (env : ℕ → AttemptOutcome)
    (h : ∀ i, i < mr → ∃ r : ResultsJson,
        env i = .parsed r none none ∧ accept_result np r.completed = false) :
    run_benchmark np mr env = ⟨.noResult, mr, mr - 1, true⟩ ∧
    (∀ (cfg : GenConfig) (cs : List GenConfig),
        log_failed_run cfg (.content (.arr cs)) .ok = .ok (some (cs ++ [cfg]))) := by
  constructor
  · have hall : ∀ o ∈ (List.range mr).map env, attemptStep np o = .failRetry := by
      intro o ho
      obtain ⟨i, hi, rfl⟩ := List.mem_map.mp ho
      obtain ⟨r, henv, hacc⟩ := h i (List.mem_range.mp hi)
      rw [henv]
      exact attemptStep_rejected np r hacc
    unfold run_benchmark
    rw [runAttempts_allFail np _ hall]
    simp
  · intro cfg cs
    rfl

/-- Witness for C7: three attempts at 990 of 1000 completed all fail the
threshold; the run makes 3 attempts, 2 sleeps, and returns no result. -/
theorem C7_retry_exhaustion_witness :
    run_benchmark 1000 3 (fun _ => .parsed ⟨990⟩ none none) = ⟨.noResult, 3, 2, true⟩ ∧
    (∀ (cfg : GenConfig) (cs : List GenConfig),
        log_failed_run cfg (.content (.arr cs)) .ok = .ok (some (cs ++ [cfg]))) :=
  C7_retry_exhaustion 1000 3 (fun _ => .parsed ⟨990⟩ none none)
    (fun i _ => ⟨⟨990⟩, rfl, by decide⟩)

/-- C8 is falsified when the earlier of two consecutive runs exhausts its
retries: the `continue` in `main` skips the between-runs cooldown, so a
two-run sweep whose first run fails entirely and whose second succeeds
performs zero driver-level sleeps, not one. -/
theorem C8_counterexample :
    sweepLoop (fun c => c.num_prompts) 3
      [(⟨.infRate, 1024, 256, 1000, some 8⟩, fun _ => .parsed ⟨0⟩ none none),
       (⟨.infRate, 1024, 256, 1000, some 16⟩, fun _ => .parsed ⟨1000⟩ none none)] =
      ⟨[(⟨.infRate, 1024, 256, 1000, some 16⟩, ⟨1000⟩)], 0, none⟩ := by
  decide

/-- C8 amended: the driver sleeps the cooldown after a successful non-final
run only; after a run that returns the no-result sentinel it continues
directly to the next configuration with no sleep, and it never sleeps
after the final run. -/
theorem C8_amended_cooldown :
    (∀ (npf : GenConfig → ℤ) (mr : ℕ) (c : GenConfig) (env : ℕ → AttemptOutcome),
        (sweepLoop npf mr [(c, env)]).driverSleeps = 0) ∧
    (∀ (npf : GenConfig → ℤ) (mr : ℕ) (c : GenConfig) (env : ℕ → AttemptOutcome)
        (rest : List (GenConfig × (ℕ → AttemptOutcome))) (r : ResultsJson),
        rest ≠ [] → (run_benchmark (npf c) mr env).result = .ok r →
        (sweepLoop npf mr ((c, env) :: rest)).driverSleeps =
          (sweepLoop npf mr rest).driverSleeps + 1) ∧
    (∀ (npf : GenConfig → ℤ) (mr : ℕ) (c : GenConfig) (env : ℕ → AttemptOutcome)
        (rest : List (GenConfig × (ℕ → AttemptOutcome))),
        (run_benchmark (npf c) mr env).result = .noResult →
        (sweepLoop npf mr ((c, env) :: rest)).driverSleeps =
          (sweepLoop npf mr rest).driverSleeps) := by
  refine ⟨?_, ?_, ?_⟩
  · intro npf mr c env
    simp only [sweepLoop]
    rcases hres : (run_benchmark (npf c) mr env).result with r | _ | e <;>
      simp [sweepLoop]
  · intro npf mr c env rest r hne hres
    have hie : rest.isEmpty = false := by
      cases rest with
      | nil => exact absurd rfl hne
      | cons a l => rfl
    simp only [sweepLoop]
    rw [hres]
    simp [hie]
  · intro npf mr c env rest hres
    simp only [sweepLoop]
    rw [hres]

/-- Witness for the amended C8: prepending a totally failing run to a
one-run sweep leaves the driver sleep count unchanged. -/
theorem C8_amended_cooldown_witness :
    (sweepLoop (fun c => c.num_prompts) 3
        [(⟨.infRate, 1024, 256, 1000, some 8⟩, fun _ => .parsed ⟨990⟩ none none),
         (⟨.infRate, 1024, 256, 1000, some 16⟩, fun _ => .parsed ⟨1000⟩ none none)]).driverSleeps =
      (sweepLoop (fun c => c.num_prompts) 3
        [(⟨.infRate, 1024, 256, 1000, some 16⟩, fun _ => .parsed ⟨1000⟩ none none)]).driverSleeps :=
  C8_amended_cooldown.2.2 (fun c => c.num_prompts) 3 ⟨.infRate, 1024, 256, 1000, some 8⟩
    (fun _ => .parsed ⟨990⟩ none none)
    [(⟨.infRate, 1024, 256, 1000, some 16⟩, fun _ => .parsed ⟨1000⟩ none none)] (by decide)

/-- C9: the failure logger starts from the parsed array when the log file
exists non-empty and from the empty array otherwise, appends the failed
configuration and rewrites the whole file; an OSError (IOError) on read or
write and a JSONDecodeError on parse are caught and reported, never
propagated out of the logger. -/
theorem C9_failure_logger :
    (∀ (cfg : GenConfig) (read : LogFileRead) (write : LogWrite),
        log_failed_run cfg read write ≠ .error .osError ∧
        log_failed_run cfg read write ≠ .error .fileNotFoundError ∧
        log_failed_run cfg read write ≠ .error .jsonDecodeError ∧
        log_failed_run cfg read write ≠ .error .calledProcessError) ∧
    (∀ (cfg : GenConfig) (cs : List GenConfig),
        log_failed_run cfg (.content (.arr cs)) .ok = .ok (some (cs ++ [cfg]))) ∧
    (∀ cfg : GenConfig, log_failed_run cfg .absent .ok = .ok (some [cfg])) ∧
    (∀ cfg : GenConfig, log_failed_run cfg .empty .ok = .ok (some [cfg])) ∧
    (∀ (cfg : GenConfig) (write : LogWrite),
        log_failed_run cfg .readOsError write = .ok none) ∧
    (∀ (cfg : GenConfig) (write : LogWrite),
        log_failed_run cfg .parseError write = .ok none) ∧
    (∀ (cfg : GenConfig) (cs : List GenConfig),
        log_failed_run cfg (.content (.arr cs)) .writeOsError = .ok none) := by
  refine ⟨?_, fun cfg cs => rfl, fun cfg => rfl, fun cfg => rfl,
    fun cfg write => rfl, fun cfg write => rfl, fun cfg cs => rfl⟩
  intro cfg read write
  rcases read with _ | _ | _ | _ | v
  · cases write <;> simp [log_failed_run]
  · cases write <;> simp [log_failed_run]
  · simp [log_failed_run]
  · simp [log_failed_run]
  · rcases v with cs | _
    · cases write <;> simp [log_failed_run]
    · simp [log_failed_run]

/-- C10: for a positive requested prompt count below 200 (reachable only
through an explicit base-config value, since derived counts are at least
512), the threshold `num_prompts // 200` floors to 0, so every parsed
result reporting at most the requested number of completions is rejected —
even a fully completed run — and such a configuration always exhausts its
retries, is logged as failed, and yields the no-result sentinel. -/
theorem C10_small_prompt_rejection (np : ℤ) (hpos : 0 < np) (hlt : np < 200) :
    pyFloorDiv np 200 = 0 ∧
    (∀ completed : ℤ, completed ≤ np → accept_result np completed = false) ∧
    (∀ (mr : ℕ) (env : ℕ → AttemptOutcome),
        (∀ i, ∃ r : ResultsJson, env i = .parsed r none none ∧ r.completed ≤ np) →
        run_benchmark np mr env = ⟨.noResult, mr, mr - 1, true⟩) ∧
    (∀ (base : BaseConfig) (sp : SweepParams) (cfg : GenConfig),
        cfg ∈ generate_benchmark_configs base sp → base.num_prompts = none →
        512 ≤ cfg.num_prompts) := by
  have hdiv : pyFloorDiv np 200 = 0 := by
    unfold pyFloorDiv
    rw [Int.fdiv_eq_ediv np (by norm_num)]
    exact Int.ediv_eq_zero_of_lt (le_of_lt hpos) hlt
  have hrej : ∀ completed : ℤ, completed ≤ np → accept_result np completed = false := by
    intro completed hc
    simp only [accept_result, hdiv, decide_eq_false_iff_not, not_lt]
    omega
  refine ⟨hdiv, hrej, ?_, ?_⟩
  · intro mr env henv
    have hall : ∀ o ∈ (List.range mr).map env, attemptStep np o = .failRetry := by
      intro o ho
      obtain ⟨i, _, rfl⟩ := List.mem_map.mp ho
      obtain ⟨r, hi, hle⟩ := henv i
      rw [hi]
      exact attemptStep_rejected np r (hrej r.completed hle)
    unfold run_benchmark
    rw [runAttempts_allFail np _ hall]
    simp
  · intro base sp cfg hmem hnone
    obtain ⟨rr, _, il, _, ratio, _, mc, _, _, _, _, rfl⟩ :=
      (mem_generate_iff base sp cfg).mp hmem
    simpa [configNumPrompts, hnone] using derivedNumPrompts_ge rr mc

/-- Witness for C10 at requested prompt count 100: the quotient is 0, a
fully completed result is rejected, and the run exhausts all 3 attempts. -/
theorem C10_small_prompt_rejection_witness :
    pyFloorDiv 100 200 = 0 ∧ accept_result 100 100 = false ∧
    run_benchmark 100 3 (fun _ => .parsed ⟨100⟩ none none) = ⟨.noResult, 3, 2, true⟩ := by
  have h := C10_small_prompt_rejection 100 (by norm_num) (by norm_num)
  exact ⟨h.1, h.2.1 100 (by norm_num), h.2.2.1 3 (fun _ => .parsed ⟨100⟩ none none)
    (fun i => ⟨⟨100⟩, rfl, by norm_num⟩)⟩
